import Mathlib

/-!
Verification of the osuapi client library (src/osuapi/model.py, src/osuapi/osu.py)
against its natural-language specification.

The JSON-decoded values handed to the conversion layer are modelled by `Json`;
Python exception values raised by the converters are modelled by `PyErr`; the
typed values produced by converters are modelled by `PyVal`.  Fallible Python
calls become `Except PyErr`-valued Lean functions.
-/

namespace Osuapi

/-- A JSON-decoded Python value as produced by the json module: `None`, `bool`,
`int`, `float` (modelled as `Rat`), `str`, `list`, `dict`. -/
inductive Json where
  | null
  | jbool (b : Bool)
  | jint (n : Int)
  | jfloat (q : Rat)
  | jstr (s : String)
  | jlist (xs : List Json)
  | jobj (fields : List (String × Json))

/-- Python exception values raised by the conversion layer.  Distinct
constructors model exceptions with distinct types or distinct messages. -/
inductive PyErr where
  /-- ValueError: invalid literal for int() with base 10 -/
  | valueErrorBadIntLiteral (s : String)
  /-- ValueError: (value) is not a valid (enum type name) -/
  | valueErrorBadEnum (enumName : String) (v : Int)
  /-- TypeError: int() argument must be a string or a number, not (kind) -/
  | typeErrorIntArg (kind : String)
  /-- ValueError: invalid literal for float() -/
  | valueErrorBadFloatLiteral (s : String)
  /-- TypeError: float() argument must be a string or a number -/
  | typeErrorFloatArg (kind : String)
  /-- ValueError raised by strptime / the datetime constructor -/
  | valueErrorBadDate (s : String)
  /-- TypeError: strptime() argument must be str -/
  | typeErrorStrptimeArg
  /-- TypeError: the argument is not iterable -/
  | typeErrorNotIterable
  /-- AttributeError: (object type) object has no attribute (attr) -/
  | attributeError (objType attr : String)
  /-- ImportError: cannot import name (name) -/
  | importError (name : String)
  /-- NameError: name (name) is not defined -/
  | nameError (name : String)
deriving DecidableEq

/-- The game modes (model.py class OsuMode). -/
inductive OsuMode where
  | osu
  | taiko
  | ctb
  | mania
deriving DecidableEq

/-- The wire integer code of each OsuMode member (model.py lines 45-49). -/
def OsuMode.value : OsuMode → Int
  | .osu => 0
  | .taiko => 1
  | .ctb => 2
  | .mania => 3

/-- The declared members of OsuMode, in declaration order. -/
def OsuMode.members : List OsuMode := [.osu, .taiko, .ctb, .mania]

/-- Python `OsuMode(n)`: look the integer up among the declared members;
no member matches means the Enum call raises (here: `none`). -/
def OsuMode.ofCode (n : Int) : Option OsuMode :=
  OsuMode.members.find? (fun m => m.value == n)

/-- The beatmap approval states (model.py class BeatmapStatus). -/
inductive BeatmapStatus where
  | graveyard
  | wip
  | pending
  | ranked
  | approved
  | qualified
deriving DecidableEq

/-- The wire integer code of each BeatmapStatus member (model.py lines 110-116). -/
def BeatmapStatus.value : BeatmapStatus → Int
  | .graveyard => -2
  | .wip => -1
  | .pending => 0
  | .ranked => 1
  | .approved => 2
  | .qualified => 3

/-- The declared members of BeatmapStatus, in declaration order. -/
def BeatmapStatus.members : List BeatmapStatus :=
  [.graveyard, .wip, .pending, .ranked, .approved, .qualified]

/-- Python `BeatmapStatus(n)`. -/
def BeatmapStatus.ofCode (n : Int) : Option BeatmapStatus :=
  BeatmapStatus.members.find? (fun m => m.value == n)

/-- The beatmap genres (model.py class BeatmapGenre).  Code 8 is not assigned. -/
inductive BeatmapGenre where
  | any
  | unspecified
  | video_game
  | anime
  | rock
  | pop
  | other
  | novelty
  | hip_hop
  | electronic
deriving DecidableEq

/-- The wire integer code of each BeatmapGenre member (model.py lines 119-129). -/
def BeatmapGenre.value : BeatmapGenre → Int
  | .any => 0
  | .unspecified => 1
  | .video_game => 2
  | .anime => 3
  | .rock => 4
  | .pop => 5
  | .other => 6
  | .novelty => 7
  | .hip_hop => 9
  | .electronic => 10

/-- The declared members of BeatmapGenre, in declaration order. -/
def BeatmapGenre.members : List BeatmapGenre :=
  [.any, .unspecified, .video_game, .anime, .rock, .pop, .other, .novelty,
   .hip_hop, .electronic]

/-- Python `BeatmapGenre(n)`. -/
def BeatmapGenre.ofCode (n : Int) : Option BeatmapGenre :=
  BeatmapGenre.members.find? (fun m => m.value == n)

/-- The beatmap languages (model.py class BeatmapLanguage). -/
inductive BeatmapLanguage where
  | any
  | other
  | english
  | japanese
  | chinese
  | instrumental
  | korean
  | french
  | german
  | swedish
  | spanish
  | italian
deriving DecidableEq

/-- The wire integer code of each BeatmapLanguage member (model.py lines 132-144). -/
def BeatmapLanguage.value : BeatmapLanguage → Int
  | .any => 0
  | .other => 1
  | .english => 2
  | .japanese => 3
  | .chinese => 4
  | .instrumental => 5
  | .korean => 6
  | .french => 7
  | .german => 8
  | .swedish => 9
  | .spanish => 10
  | .italian => 11

/-- The declared members of BeatmapLanguage, in declaration order. -/
def BeatmapLanguage.members : List BeatmapLanguage :=
  [.any, .other, .english, .japanese, .chinese, .instrumental, .korean,
   .french, .german, .swedish, .spanish, .italian]

/-- Python `BeatmapLanguage(n)`. -/
def BeatmapLanguage.ofCode (n : Int) : Option BeatmapLanguage :=
  BeatmapLanguage.members.find? (fun m => m.value == n)

/-- A parsed timestamp, the relevant fields of Python's datetime.datetime. -/
structure DateTime where
  year : Nat
  month : Nat
  day : Nat
  hour : Nat
  minute : Nat
  second : Nat
deriving DecidableEq

/-- A typed value produced by the conversion layer. -/
inductive PyVal where
  | vnone
  | vbool (b : Bool)
  | vint (n : Int)
  | vfloat (q : Rat)
  | vstr (s : String)
  | vdatetime (d : DateTime)
  | vmode (m : OsuMode)
  | vstatus (st : BeatmapStatus)
  | vgenre (g : BeatmapGenre)
  | vlang (l : BeatmapLanguage)
  | vlist (xs : List PyVal)
  | vobj (fields : List (String × PyVal))

/-- A converter in the sense of the mapping layer: raw JSON value in, typed
value or Python exception out. -/
def Conv : Type := Json → Except PyErr PyVal

/-- The numeric value of a decimal digit character. -/
def digitVal (c : Char) : Nat := c.toNat - 48

/-- The natural number denoted by a list of decimal digit characters. -/
def natOfDigits (ds : List Char) : Nat :=
  ds.foldl (fun acc c => acc * 10 + digitVal c) 0

/-- The whitespace stripping Python `int(s)` performs on its string argument
before parsing. -/
def stripWs (cs : List Char) : List Char :=
  ((cs.dropWhile Char.isWhitespace).reverse.dropWhile Char.isWhitespace).reverse

/-- Python `int(s)` on a string: strip surrounding whitespace, then an
optional sign followed by a nonempty run of decimal digits.  (Underscore
digit grouping and non-ASCII digits are not modelled; no claim involves
them.) -/
def parseIntStr (s : String) : Option Int :=
  match stripWs s.toList with
  | '+' :: ds =>
    if !ds.isEmpty && ds.all Char.isDigit then some (natOfDigits ds) else none
  | '-' :: ds =>
    if !ds.isEmpty && ds.all Char.isDigit then some (-(natOfDigits ds : Int)) else none
  | ds =>
    if !ds.isEmpty && ds.all Char.isDigit then some (natOfDigits ds) else none

/-- Python `int(f)` on a float truncates toward zero. -/
def truncRat (q : Rat) : Int := if 0 ≤ q then ⌊q⌋ else ⌈q⌉

/-- Python `int(raw)`: identity on ints, 0/1 on bools, truncation on floats,
decimal parse on strings (ValueError on a bad literal), TypeError otherwise. -/
def pyInt : Json → Except PyErr Int
  | .jint n => .ok n
  | .jbool b => .ok (if b then 1 else 0)
  | .jfloat q => .ok (truncRat q)
  | .jstr s =>
    match parseIntStr s with
    | some n => .ok n
    | none => .error (.valueErrorBadIntLiteral s)
  | .null => .error (.typeErrorIntArg "NoneType")
  | .jlist _ => .error (.typeErrorIntArg "list")
  | .jobj _ => .error (.typeErrorIntArg "dict")

/-- Python truthiness, the semantics of `bool(raw)`; it never raises. -/
def pyTruthy : Json → Bool
  | .null => false
  | .jbool b => b
  | .jint n => n != 0
  | .jfloat q => q != 0
  | .jstr s => !s.isEmpty
  | .jlist xs => !xs.isEmpty
  | .jobj fs => !fs.isEmpty

mutual

/-- Python `repr(raw)` for JSON-decoded values.  Accurate for None, bools,
ints and strings without embedded quotes; the float rendering is the Lean
rational rendering rather than Python's shortest-roundtrip decimal (no claim
evaluates repr of a float). -/
def pyRepr : Json → String
  | .null => "None"
  | .jbool b => if b then "True" else "False"
  | .jint n => toString n
  | .jfloat q => toString q
  | .jstr s => "'" ++ s ++ "'"
  | .jlist xs => "[" ++ pyReprList xs ++ "]"
  | .jobj fs => "\x7b" ++ pyReprObj fs ++ "\x7d"

/-- Comma-separated reprs of list elements. -/
def pyReprList : List Json → String
  | [] => ""
  | [x] => pyRepr x
  | x :: xs => pyRepr x ++ ", " ++ pyReprList xs

/-- Comma-separated reprs of dict entries. -/
def pyReprObj : List (String × Json) → String
  | [] => ""
  | [(k, v)] => "'" ++ k ++ "': " ++ pyRepr v
  | (k, v) :: fs => "'" ++ k ++ "': " ++ pyRepr v ++ ", " ++ pyReprObj fs

end

/-- Python `str(raw)`: the string itself for strings, repr-like rendering
for everything else; it never raises. -/
def pyStrOf : Json → String
  | .jstr s => s
  | j => pyRepr j

/-- The converter of an `Attribute(int)` field: Python `int()`. -/
def pyIntConv : Conv := fun raw => (pyInt raw).map .vint

/-- The converter of an `Attribute(bool)` field: Python `bool()`. -/
def pyBoolConv : Conv := fun raw => .ok (.vbool (pyTruthy raw))

/-- The converter of an `Attribute(str)` field: Python `str()`. -/
def pyStrConv : Conv := fun raw => .ok (.vstr (pyStrOf raw))

/-- model.py `Nullable`: generate a converter that returns None when the raw
value is the null sentinel and otherwise delegates to the wrapped converter
(model.py lines 18-28). -/
def Nullable (oftype : Conv) : Conv := fun it =>
  match it with
  | .null => .ok .vnone
  | _ => oftype it

/-- The list comprehension inside model.py `JsonList`: convert each entry
left to right; the first exception propagates, so no partial list is ever
produced. -/
def convList (oftype : Conv) : List Json → Except PyErr (List PyVal)
  | [] => .ok []
  | a :: rest =>
    match oftype a with
    | .error e => .error e
    | .ok v => (convList oftype rest).map (fun vs => v :: vs)

/-- model.py `JsonList`: generate a converter that accepts a list of
:oftype (model.py lines 8-15).  A non-iterable raw value raises TypeError. -/
def JsonList (oftype : Conv) : Conv := fun raw =>
  match raw with
  | .jlist xs => (convList oftype xs).map .vlist
  | _ => .error .typeErrorNotIterable

/-- Python `OsuMode(n)` as a fallible call: ValueError when no member has
value n, otherwise the member. -/
def osuModeCall (n : Int) : Except PyErr PyVal :=
  match OsuMode.ofCode n with
  | some m => .ok (.vmode m)
  | none => .error (.valueErrorBadEnum "OsuMode" n)

/-- Python `BeatmapStatus(n)` as a fallible call. -/
def beatmapStatusCall (n : Int) : Except PyErr PyVal :=
  match BeatmapStatus.ofCode n with
  | some st => .ok (.vstatus st)
  | none => .error (.valueErrorBadEnum "BeatmapStatus" n)

/-- Python `BeatmapGenre(n)` as a fallible call. -/
def beatmapGenreCall (n : Int) : Except PyErr PyVal :=
  match BeatmapGenre.ofCode n with
  | some g => .ok (.vgenre g)
  | none => .error (.valueErrorBadEnum "BeatmapGenre" n)

/-- Python `BeatmapLanguage(n)` as a fallible call. -/
def beatmapLanguageCall (n : Int) : Except PyErr PyVal :=
  match BeatmapLanguage.ofCode n with
  | some l => .ok (.vlang l)
  | none => .error (.valueErrorBadEnum "BeatmapLanguage" n)

/-- model.py `PreProcessInt`: generate a converter that first converts the
input to int before passing it to :oftype (model.py lines 31-37). -/
def PreProcessInt (oftype : Int → Except PyErr PyVal) : Conv := fun it =>
  (pyInt it).bind oftype

/-- The decimal digit character of a digit value (capped at '9'; only applied
to values below 10). -/
def digitChar : Nat → Char
  | 0 => '0'
  | 1 => '1'
  | 2 => '2'
  | 3 => '3'
  | 4 => '4'
  | 5 => '5'
  | 6 => '6'
  | 7 => '7'
  | 8 => '8'
  | _ => '9'

/-- The %Y directive of strptime: exactly four decimal digits. -/
def parseYear : List Char → Option (Nat × List Char)
  | c1 :: c2 :: c3 :: c4 :: rest =>
    if c1.isDigit && c2.isDigit && c3.isDigit && c4.isDigit then
      some (digitVal c1 * 1000 + digitVal c2 * 100 + digitVal c3 * 10 + digitVal c4, rest)
    else none
  | _ => none

/-- A one-or-two-digit strptime directive.  The underlying regular expression
tries the two-digit alternatives first; a one-digit match is only ever kept
when the following character is not a digit, which the surrounding format
("-", " ", ":" or end of input follows every directive) forces anyway, so the
greedy reading used here agrees with the backtracking regex on every input. -/
def parseField (twoOK oneOK : Nat → Bool) : List Char → Option (Nat × List Char)
  | c1 :: c2 :: rest =>
    if c1.isDigit && c2.isDigit && twoOK (digitVal c1 * 10 + digitVal c2) then
      some (digitVal c1 * 10 + digitVal c2, rest)
    else if c1.isDigit && oneOK (digitVal c1) then
      some (digitVal c1, c2 :: rest)
    else none
  | [c1] =>
    if c1.isDigit && oneOK (digitVal c1) then some (digitVal c1, []) else none
  | [] => none

/-- A literal character of the format string. -/
def parseLit (c : Char) : List Char → Option (List Char)
  | c1 :: rest => if c1 = c then some rest else none
  | [] => none

/-- Two-digit matches of the %m directive (1[0-2] or 0[1-9]). -/
def twoDigitMonth (v : Nat) : Bool := decide (1 ≤ v ∧ v ≤ 12)

/-- One-digit matches of the %m and %d directives ([1-9]). -/
def oneDigitPos (v : Nat) : Bool := decide (1 ≤ v ∧ v ≤ 9)

/-- Two-digit matches of the %d directive (3[01], [12] digit, or 0[1-9]). -/
def twoDigitDay (v : Nat) : Bool := decide (1 ≤ v ∧ v ≤ 31)

/-- Two-digit matches of the %H directive (2[0-3] or [0-1] digit). -/
def twoDigitHour (v : Nat) : Bool := decide (v ≤ 23)

/-- Two-digit matches of the %M directive ([0-5] digit). -/
def twoDigitMinute (v : Nat) : Bool := decide (v ≤ 59)

/-- Two-digit matches of the %S directive (6[0-1] or [0-5] digit; the leap
second values 60 and 61 are accepted by the directive and rejected later by
the datetime constructor). -/
def twoDigitSecond (v : Nat) : Bool := decide (v ≤ 61)

/-- One-digit matches of the %H, %M and %S directives (any digit). -/
def oneDigitAny (_ : Nat) : Bool := true

/-- The field extraction of strptime(val, "%Y-%m-%d %H:%M:%S"): the six
directives separated by the literal '-', '-', ' ', ':', ':' characters, with
no unconverted trailing data allowed. -/
def strptimeFields (cs : List Char) : Option (Nat × Nat × Nat × Nat × Nat × Nat) :=
  (parseYear cs).bind fun (y, cs1) =>
  (parseLit '-' cs1).bind fun cs2 =>
  (parseField twoDigitMonth oneDigitPos cs2).bind fun (mo, cs3) =>
  (parseLit '-' cs3).bind fun cs4 =>
  (parseField twoDigitDay oneDigitPos cs4).bind fun (d, cs5) =>
  (parseLit ' ' cs5).bind fun cs6 =>
  (parseField twoDigitHour oneDigitAny cs6).bind fun (h, cs7) =>
  (parseLit ':' cs7).bind fun cs8 =>
  (parseField twoDigitMinute oneDigitAny cs8).bind fun (mi, cs9) =>
  (parseLit ':' cs9).bind fun cs10 =>
  (parseField twoDigitSecond oneDigitAny cs10).bind fun (sec, cs11) =>
  if cs11.isEmpty then some (y, mo, d, h, mi, sec) else none

/-- The Gregorian leap year rule used by the datetime module. -/
def isLeapYear (y : Nat) : Bool := y % 4 == 0 && (y % 100 != 0 || y % 400 == 0)

/-- Days in a month, as validated by the datetime constructor. -/
def daysInMonth (y m : Nat) : Nat :=
  if m = 2 then (if isLeapYear y then 29 else 28)
  else if m = 4 ∨ m = 6 ∨ m = 9 ∨ m = 11 then 30
  else 31

/-- datetime.strptime(s, "%Y-%m-%d %H:%M:%S"): extract the six fields, then
construct the datetime, which further requires year at least 1, second at
most 59 and a day that exists in the month.  Both phases raise ValueError. -/
def strptimeOsu (s : String) : Except PyErr DateTime :=
  match strptimeFields s.toList with
  | none => .error (.valueErrorBadDate s)
  | some (y, mo, d, h, mi, sec) =>
    if 1 ≤ y ∧ sec ≤ 59 ∧ d ≤ daysInMonth y mo then
      .ok ⟨y, mo, d, h, mi, sec⟩
    else .error (.valueErrorBadDate s)

/-- model.py DateConverter (lines 40-42): convert the osu! api's date type
into datetime via strptime with the single format "%Y-%m-%d %H:%M:%S". -/
def DateConverter : Conv := fun raw =>
  match raw with
  | .jstr s => (strptimeOsu s).map .vdatetime
  | _ => .error .typeErrorStrptimeArg

/-- A two-digit zero-padded strftime field (%m, %d, %H, %M, %S). -/
def pad2 (n : Nat) : List Char := [digitChar (n / 10), digitChar (n % 10)]

/-- The four digits of a four-digit year under %Y. -/
def pad4 (n : Nat) : List Char :=
  [digitChar (n / 1000), digitChar (n / 100 % 10), digitChar (n / 10 % 10),
   digitChar (n % 10)]

/-- The strftime rendering "%Y-%m-%d %H:%M:%S" used by get_beatmaps on its
`since` argument (osu.py line 163), for datetimes with four-digit years (some
platform strftimes do not zero-pad a year below 1000; the theorems below
quantify over four-digit years, where all platforms agree). -/
def formatDate (t : DateTime) : String :=
  String.mk (pad4 t.year ++ '-' :: (pad2 t.month ++ '-' :: (pad2 t.day ++
    ' ' :: (pad2 t.hour ++ ':' :: (pad2 t.minute ++ ':' :: pad2 t.second)))))

/-- A value sent as an outgoing request parameter. -/
inductive ParamVal where
  | pstr (s : String)
  | pint (n : Int)
  | pbool (b : Bool)
deriving DecidableEq

/-- A username argument: either an int user id or a str user name. -/
inductive Username where
  | byId (n : Int)
  | byName (s : String)
deriving DecidableEq

/-- osu.py OsuApi._username_type (lines 43-47): None stays None, an int
username is tagged "int", a str username is tagged "string". -/
def usernameType : Option Username → Option ParamVal
  | none => none
  | some (.byId _) => some (.pstr "int")
  | some (.byName _) => some (.pstr "string")

/-- The parameter value carrying a username. -/
def usernameParam : Username → ParamVal
  | .byId n => .pint n
  | .byName s => .pstr s

/-- osu.py OsuApi._make_req (line 41): the dict comprehension dropping every
entry whose value is None before the request is issued. -/
def makeReqParams (data : List (String × Option ParamVal)) : List (String × ParamVal) :=
  data.filterMap fun p => p.2.map (fun v => (p.1, v))

/-- osu.py OsuApi.get_beatmaps (lines 158-169): the parameter set handed to
_make_req.  `since` is rendered with "%Y-%m-%d %H:%M:%S" when present and
left as None (hence omitted) otherwise. -/
def getBeatmapsParams (key : String) (since : Option DateTime)
    (beatmapset_id beatmap_id : Option Int) (username : Option Username)
    (mode : OsuMode) (include_converted : Bool) (beatmap_hash : Option String)
    (limit : Int) : List (String × ParamVal) :=
  makeReqParams
    [("k", some (.pstr key)),
     ("s", beatmapset_id.map .pint),
     ("b", beatmap_id.map .pint),
     ("u", username.map usernameParam),
     ("since", since.map (fun t => .pstr (formatDate t))),
     ("type", usernameType username),
     ("m", some (.pint mode.value)),
     ("a", some (.pbool include_converted)),
     ("h", beatmap_hash.map .pstr),
     ("limit", some (.pint limit))]

/-- The digits-and-optional-point core of Python `float(s)` (exponents, inf
and nan are not modelled; no claim involves them). -/
def parseFloatCore (cs : List Char) : Option Rat :=
  let ip := cs.takeWhile Char.isDigit
  let rest := cs.dropWhile Char.isDigit
  match rest with
  | [] => if ip.isEmpty then none else some ((natOfDigits ip : Rat))
  | '.' :: frac =>
    if frac.all Char.isDigit && !(ip.isEmpty && frac.isEmpty) then
      some ((natOfDigits ip : Rat) + (natOfDigits frac : Rat) / (10 : Rat) ^ frac.length)
    else none
  | _ => none

/-- Python `float(s)` on a string: strip whitespace, optional sign, digits
with an optional decimal point. -/
def parseFloatStr (s : String) : Option Rat :=
  match stripWs s.toList with
  | '+' :: cs => parseFloatCore cs
  | '-' :: cs => (parseFloatCore cs).map (fun q => -q)
  | cs => parseFloatCore cs

/-- Python `float(raw)`. -/
def pyFloat : Json → Except PyErr Rat
  | .jfloat q => .ok q
  | .jint n => .ok (n : Rat)
  | .jbool b => .ok (if b then 1 else 0)
  | .jstr s =>
    match parseFloatStr s with
    | some q => .ok q
    | none => .error (.valueErrorBadFloatLiteral s)
  | .null => .error (.typeErrorFloatArg "NoneType")
  | .jlist _ => .error (.typeErrorFloatArg "list")
  | .jobj _ => .error (.typeErrorFloatArg "dict")

/-- The converter of an `Attribute(float)` field: Python `float()`. -/
def pyFloatConv : Conv := fun raw => (pyFloat raw).map .vfloat

/-- A model type definition: the ordered list of (attribute name, raw JSON
source key, converter) triples declared by the Attribute descriptors of a
model class body. -/
abbrev Schema : Type := List (String × String × Conv)

/-- An error raised while constructing a model instance. -/
inductive ConstructErr where
  | missingField (name : String)
  | fieldError (name : String) (err : PyErr)

/-- Modelled from the spec: the dictmodel module (AttributeModel and
Attribute) is not among the source files; spec section 4.2 gives the base
construction protocol.  For every descriptor in order: look the raw object up
at the descriptor's source key, failing with a missing-field error naming the
attribute when the key is absent; apply the descriptor's converter, failing
with a field error naming the attribute and carrying the underlying
conversion error; on full success expose each attribute by its declared name
with its converted value. -/
def construct : Schema → List (String × Json) → Except ConstructErr (List (String × PyVal))
  | [], _ => .ok []
  | (name, key, conv) :: rest, raw =>
    match List.lookup key raw with
    | none => .error (.missingField name)
    | some v =>
      match conv v with
      | .error e => .error (.fieldError name e)
      | .ok tv => (construct rest raw).map (fun inst => (name, tv) :: inst)

/-- A schema entry succeeds on a raw object: its source key is present and
its converter succeeds on the value found there. -/
def entryOK (raw : List (String × Json)) (entry : String × String × Conv) : Prop :=
  ∃ v w, List.lookup entry.2.1 raw = some v ∧ entry.2.2 v = .ok w

/-- The Score attribute list (model.py lines 52-67) as schema triples; every
source key equals the attribute name. -/
def scoreSchema : Schema :=
  [("beatmap_id", "beatmap_id", pyStrConv),
   ("score", "score", pyIntConv),
   ("maxcombo", "maxcombo", pyIntConv),
   ("count50", "count50", pyIntConv),
   ("count100", "count100", pyIntConv),
   ("count300", "count300", pyIntConv),
   ("countmiss", "countmiss", pyIntConv),
   ("countkatu", "countkatu", pyIntConv),
   ("countgeki", "countgeki", pyIntConv),
   ("perfect", "perfect", pyBoolConv),
   ("enabled_mods", "enabled_mods", pyIntConv),
   ("user_id", "user_id", pyIntConv),
   ("date", "date", DateConverter),
   ("rank", "rank", pyStrConv),
   ("pp", "pp", pyFloatConv)]

/-- The attributes TeamScore itself declares (model.py lines 73-76); the
`passed` attribute is sourced from the JSON key "pass". -/
def teamScoreOwn : Schema :=
  [("slot", "slot", pyIntConv),
   ("team", "team", pyIntConv),
   ("passed", "pass", pyBoolConv)]

/-- Modelled from the spec: subclass schema construction (spec section 3);
a subclass's definition is the union of its parent's descriptors and its
own, its own taking precedence on a name collision. -/
def inheritSchema (parent child : Schema) : Schema :=
  parent.filter (fun e => !(child.any (fun c => c.1 == e.1))) ++ child

/-- The TeamScore schema: Score's attributes extended with TeamScore's own
(model.py line 73, class TeamScore(Score)). -/
def teamScoreSchema : Schema := inheritSchema scoreSchema teamScoreOwn

/-- A raw team-score JSON object covering every declared field. -/
def teamScoreRaw : List (String × Json) :=
  [("beatmap_id", .jstr "774965"),
   ("score", .jstr "123456"),
   ("maxcombo", .jint 250),
   ("count50", .jint 1),
   ("count100", .jint 2),
   ("count300", .jint 300),
   ("countmiss", .jint 0),
   ("countkatu", .jint 3),
   ("countgeki", .jint 4),
   ("perfect", .jstr "1"),
   ("enabled_mods", .jint 0),
   ("user_id", .jint 42),
   ("date", .jstr "2014-01-02 03:04:05"),
   ("rank", .jstr "S"),
   ("pp", .jfloat (199 / 2)),
   ("slot", .jint 3),
   ("team", .jint 1),
   ("pass", .jstr "1")]

/-- The typed instance expected from converting `teamScoreRaw`. -/
def teamScoreInstance : List (String × PyVal) :=
  [("beatmap_id", .vstr "774965"),
   ("score", .vint 123456),
   ("maxcombo", .vint 250),
   ("count50", .vint 1),
   ("count100", .vint 2),
   ("count300", .vint 300),
   ("countmiss", .vint 0),
   ("countkatu", .vint 3),
   ("countgeki", .vint 4),
   ("perfect", .vbool true),
   ("enabled_mods", .vint 0),
   ("user_id", .vint 42),
   ("date", .vdatetime ⟨2014, 1, 2, 3, 4, 5⟩),
   ("rank", .vstr "S"),
   ("pp", .vfloat (199 / 2)),
   ("slot", .vint 3),
   ("team", .vint 1),
   ("passed", .vbool true)]

/-- osu.py OsuApi.get_scores (lines 107-132): the dict literal evaluates
`mods.value` before _make_req can filter out None entries; with mods left at
its default None that attribute access raises AttributeError.  The mods
argument is modelled by the integer its .value attribute holds when
present. -/
def getScoresReq (key : String) (beatmap_id : Int) (username : Option Username)
    (mode : OsuMode) (mods : Option Int) (limit : Int) :
    Except PyErr (List (String × ParamVal)) :=
  match mods with
  | none => .error (.attributeError "NoneType" "value")
  | some mv =>
    .ok (makeReqParams
      [("k", some (.pstr key)),
       ("b", some (.pint beatmap_id)),
       ("u", username.map usernameParam),
       ("type", usernameType username),
       ("m", some (.pint mode.value)),
       ("mods", some (.pint mv)),
       ("limit", some (.pint limit))])

/-- The top-level names the model module defines (model.py: its imports and
its converter, enum and model class definitions). -/
def modelModuleNames : List String :=
  ["datetime", "Enum", "AttributeModel", "Attribute", "JsonList", "Nullable",
   "PreProcessInt", "DateConverter", "OsuMode", "Score", "TeamScore", "User",
   "BeatmapStatus", "BeatmapGenre", "BeatmapLanguage", "Beatmap",
   "MatchMetadata", "Game", "Match"]

/-- The names osu.py line 1 imports from the model module. -/
def osuModuleModelImports : List String :=
  ["User", "SoloScore", "JsonList", "OsuMode", "Beatmap", "Match"]

/-- A from-import statement: bind the requested names left to right; the
first name the source module does not define raises ImportError. -/
def resolveImports (requested defined : List String) : Except PyErr Unit :=
  match requested.find? (fun n => !(defined.contains n)) with
  | some n => .error (.importError n)
  | none => .ok ()

/-- Loading the osu module executes its import from the model module
first; the module body never runs when that import raises. -/
def loadOsuModule : Except PyErr Unit :=
  resolveImports osuModuleModelImports modelModuleNames

/-- osu.py OsuApi.get_user_best (lines 67-85): invoking it requires the osu
module to have loaded; only then is its parameter set built and the result
converted with JsonList(SoloScore). -/
def getUserBestReq (key : String) (username : Username) (mode : OsuMode)
    (limit : Int) : Except PyErr (List (String × ParamVal)) :=
  loadOsuModule.bind fun _ =>
    .ok (makeReqParams
      [("k", some (.pstr key)),
       ("u", some (usernameParam username)),
       ("type", usernameType (some username)),
       ("m", some (.pint mode.value)),
       ("limit", some (.pint limit))])

/-- The built-in names Python name resolution reaches after the module
globals; none of them is "username". -/
def builtinNames : List String :=
  ["int", "str", "float", "bool", "list", "dict", "len", "range", "print"]

/-- Python name resolution inside a method body: locals first, then module
globals, then builtins; an unresolved name raises NameError.  A local hit
returns its modelled value; a global or builtin hit returns `none` since the
reachable module objects are not otherwise modelled. -/
def resolveName (name : String) (locals : List (String × PyVal))
    (globals builtins : List String) : Except PyErr (Option PyVal) :=
  match List.lookup name locals with
  | some v => .ok (some v)
  | none =>
    if globals.contains name || builtins.contains name then .ok none
    else .error (.nameError name)

/-- model.py User.__str__ (lines 106-107): the body is `return username`, a
bare name resolved against the method's locals (self only), the model
module's globals and the builtins. -/
def userStrMethod (self : List (String × PyVal)) : Except PyErr (Option PyVal) :=
  resolveName "username" [("self", .vobj self)] modelModuleNames builtinNames

/-- C3: Nullable(T) applied to the JSON null sentinel returns the absent
marker without invoking T's converter (the result is `.ok .vnone` uniformly
in T, including converters that would fail on null), and on every non-null
input it returns exactly what T's converter returns. -/
theorem nullable_null_marker_and_delegation :
    (∀ oftype : Conv, Nullable oftype .null = .ok .vnone) ∧
    (∀ (oftype : Conv) (it : Json), it ≠ .null → Nullable oftype it = oftype it) := by
  constructor
  · intro oftype; rfl
  · intro oftype it h
    cases it <;> first | exact absurd rfl h | rfl

/-- Witness for C3 at concrete inputs. -/
theorem nullable_null_marker_and_delegation_witness :
    Nullable pyIntConv .null = .ok .vnone ∧
    Nullable pyIntConv (.jint 5) = pyIntConv (.jint 5) :=
  ⟨nullable_null_marker_and_delegation.1 pyIntConv,
   nullable_null_marker_and_delegation.2 pyIntConv (.jint 5) (by simp)⟩

lemma convList_ok (oftype : Conv) (xs : List Json) (f : Json → PyVal)
    (h : ∀ a ∈ xs, oftype a = .ok (f a)) :
    convList oftype xs = .ok (xs.map f) := by
  induction xs with
  | nil => rfl
  | cons a as ih =>
    simp only [convList, h a (List.mem_cons_self a as), List.map_cons]
    rw [ih (fun x hx => h x (List.mem_cons_of_mem a hx))]
    rfl

lemma convList_error (oftype : Conv) (xs : List Json) (a : Json) (e : PyErr)
    (ha : a ∈ xs) (he : oftype a = .error e) :
    ∃ e2, convList oftype xs = .error e2 := by
  induction xs with
  | nil => cases ha
  | cons b bs ih =>
    rcases List.mem_cons.mp ha with rfl | hmem
    · exact ⟨e, by simp only [convList, he]⟩
    · cases hb : oftype b with
      | error e3 => exact ⟨e3, by simp only [convList, hb]⟩
      | ok v =>
        obtain ⟨e2, h2⟩ := ih hmem
        exact ⟨e2, by simp only [convList, hb, h2]; rfl⟩

/-- C4: JsonList(T) on a raw JSON array returns the converted elements in
the same order and of the same length (the image under T of the input list),
and it fails as a whole, producing no partial list, whenever T fails on any
element. -/
theorem jsonlist_order_length_whole_failure :
    (∀ (oftype : Conv) (xs : List Json) (f : Json → PyVal),
      (∀ a ∈ xs, oftype a = .ok (f a)) →
      JsonList oftype (.jlist xs) = .ok (.vlist (xs.map f))) ∧
    (∀ (oftype : Conv) (xs : List Json) (a : Json) (e : PyErr),
      a ∈ xs → oftype a = .error e →
      ∃ e2, JsonList oftype (.jlist xs) = .error e2) := by
  constructor
  · intro oftype xs f h
    simp only [JsonList, convList_ok oftype xs f h]
    rfl
  · intro oftype xs a e ha he
    obtain ⟨e2, h2⟩ := convList_error oftype xs a e ha he
    exact ⟨e2, by simp only [JsonList, h2]; rfl⟩

/-- Witness for C4: a concrete two-element conversion succeeds in order, and
a list with one bad element fails as a whole. -/
theorem jsonlist_order_length_whole_failure_witness :
    JsonList pyIntConv (.jlist [.jint 1, .jint 2]) =
      .ok (.vlist [.vint 1, .vint 2]) ∧
    ∃ e2, JsonList pyIntConv (.jlist [.jint 1, .null]) = .error e2 := by
  constructor
  · exact jsonlist_order_length_whole_failure.1 pyIntConv [.jint 1, .jint 2]
      (fun a => match a with | .jint n => .vint n | _ => .vnone)
      (by intro a ha; fin_cases ha <;> rfl)
  · exact jsonlist_order_length_whole_failure.2 pyIntConv [.jint 1, .null] .null
      (.typeErrorIntArg "NoneType") (by simp) rfl

lemma osuMode_ofCode_eq (n : Int) : OsuMode.ofCode n =
    if n = 0 then some .osu
    else if n = 1 then some .taiko
    else if n = 2 then some .ctb
    else if n = 3 then some .mania
    else none := by
  by_cases h0 : n = 0
  · subst h0; decide
  by_cases h1 : n = 1
  · subst h1; decide
  by_cases h2 : n = 2
  · subst h2; decide
  by_cases h3 : n = 3
  · subst h3; decide
  simp only [if_neg h0, if_neg h1, if_neg h2, if_neg h3]
  exact List.find?_eq_none.mpr (by
    intro x hx
    fin_cases hx <;> simp [OsuMode.value] <;> omega)

lemma beatmapStatus_ofCode_eq (n : Int) : BeatmapStatus.ofCode n =
    if n = -2 then some .graveyard
    else if n = -1 then some .wip
    else if n = 0 then some .pending
    else if n = 1 then some .ranked
    else if n = 2 then some .approved
    else if n = 3 then some .qualified
    else none := by
  by_cases hm2 : n = -2
  · subst hm2; decide
  by_cases hm1 : n = -1
  · subst hm1; decide
  by_cases h0 : n = 0
  · subst h0; decide
  by_cases h1 : n = 1
  · subst h1; decide
  by_cases h2 : n = 2
  · subst h2; decide
  by_cases h3 : n = 3
  · subst h3; decide
  simp only [if_neg hm2, if_neg hm1, if_neg h0, if_neg h1, if_neg h2, if_neg h3]
  exact List.find?_eq_none.mpr (by
    intro x hx
    fin_cases hx <;> simp [BeatmapStatus.value] <;> omega)

lemma beatmapGenre_ofCode_eq (n : Int) : BeatmapGenre.ofCode n =
    if n = 0 then some .any
    else if n = 1 then some .unspecified
    else if n = 2 then some .video_game
    else if n = 3 then some .anime
    else if n = 4 then some .rock
    else if n = 5 then some .pop
    else if n = 6 then some .other
    else if n = 7 then some .novelty
    else if n = 9 then some .hip_hop
    else if n = 10 then some .electronic
    else none := by
  by_cases h0 : n = 0
  · subst h0; decide
  by_cases h1 : n = 1
  · subst h1; decide
  by_cases h2 : n = 2
  · subst h2; decide
  by_cases h3 : n = 3
  · subst h3; decide
  by_cases h4 : n = 4
  · subst h4; decide
  by_cases h5 : n = 5
  · subst h5; decide
  by_cases h6 : n = 6
  · subst h6; decide
  by_cases h7 : n = 7
  · subst h7; decide
  by_cases h9 : n = 9
  · subst h9; decide
  by_cases h10 : n = 10
  · subst h10; decide
  simp only [if_neg h0, if_neg h1, if_neg h2, if_neg h3, if_neg h4, if_neg h5,
    if_neg h6, if_neg h7, if_neg h9, if_neg h10]
  exact List.find?_eq_none.mpr (by
    intro x hx
    fin_cases hx <;> simp [BeatmapGenre.value] <;> omega)

lemma beatmapLanguage_ofCode_eq (n : Int) : BeatmapLanguage.ofCode n =
    if n = 0 then some .any
    else if n = 1 then some .other
    else if n = 2 then some .english
    else if n = 3 then some .japanese
    else if n = 4 then some .chinese
    else if n = 5 then some .instrumental
    else if n = 6 then some .korean
    else if n = 7 then some .french
    else if n = 8 then some .german
    else if n = 9 then some .swedish
    else if n = 10 then some .spanish
    else if n = 11 then some .italian
    else none := by
  by_cases h0 : n = 0
  · subst h0; decide
  by_cases h1 : n = 1
  · subst h1; decide
  by_cases h2 : n = 2
  · subst h2; decide
  by_cases h3 : n = 3
  · subst h3; decide
  by_cases h4 : n = 4
  · subst h4; decide
  by_cases h5 : n = 5
  · subst h5; decide
  by_cases h6 : n = 6
  · subst h6; decide
  by_cases h7 : n = 7
  · subst h7; decide
  by_cases h8 : n = 8
  · subst h8; decide
  by_cases h9 : n = 9
  · subst h9; decide
  by_cases h10 : n = 10
  · subst h10; decide
  by_cases h11 : n = 11
  · subst h11; decide
  simp only [if_neg h0, if_neg h1, if_neg h2, if_neg h3, if_neg h4, if_neg h5,
    if_neg h6, if_neg h7, if_neg h8, if_neg h9, if_neg h10, if_neg h11]
  exact List.find?_eq_none.mpr (by
    intro x hx
    fin_cases hx <;> simp [BeatmapLanguage.value] <;> omega)

/-- C6: PreProcessInt(EnumT) first coerces the raw value to an integer (so
numeric strings like "1" are accepted) and then looks that integer up in the
enum's closed set; a non-member integer yields the unknown-enum-value
ValueError, which is a different error value from the bad-int-literal
ValueError produced when the raw value cannot be coerced to an integer. -/
theorem preprocessint_coerce_then_lookup :
    (∀ (oftype : Int → Except PyErr PyVal) (raw : Json) (n : Int),
      pyInt raw = .ok n → PreProcessInt oftype raw = oftype n) ∧
    (∀ (oftype : Int → Except PyErr PyVal) (raw : Json) (e : PyErr),
      pyInt raw = .error e → PreProcessInt oftype raw = .error e) ∧
    (∀ n : Int, BeatmapStatus.ofCode n = none →
      PreProcessInt beatmapStatusCall (.jint n) =
        .error (.valueErrorBadEnum "BeatmapStatus" n)) ∧
    (∀ s : String, parseIntStr s = none →
      PreProcessInt beatmapStatusCall (.jstr s) =
        .error (.valueErrorBadIntLiteral s)) ∧
    (∀ (s : String) (en : String) (v : Int),
      PyErr.valueErrorBadIntLiteral s ≠ PyErr.valueErrorBadEnum en v) ∧
    PreProcessInt beatmapStatusCall (.jstr "1") = .ok (.vstatus .ranked) := by
  refine ⟨?_, ?_, ?_, ?_, ?_, ?_⟩
  · intro oftype raw n h
    simp only [PreProcessInt, h, Except.bind]
  · intro oftype raw e h
    simp only [PreProcessInt, h, Except.bind]
  · intro n h
    simp only [PreProcessInt, pyInt, beatmapStatusCall, h, Except.bind]
  · intro s h
    simp only [PreProcessInt, pyInt, h, Except.bind]
  · intro s en v
    simp
  · rfl

/-- Witness for C6 at concrete inputs: status 99 is an unknown-enum error,
"abc" is a bad-int-literal error, and the two error values differ. -/
theorem preprocessint_coerce_then_lookup_witness :
    PreProcessInt beatmapStatusCall (.jint 99) =
      .error (.valueErrorBadEnum "BeatmapStatus" 99) ∧
    PreProcessInt beatmapStatusCall (.jstr "abc") =
      .error (.valueErrorBadIntLiteral "abc") ∧
    PreProcessInt beatmapStatusCall (.jint 1) = beatmapStatusCall 1 ∧
    PyErr.valueErrorBadIntLiteral "abc" ≠
      PyErr.valueErrorBadEnum "BeatmapStatus" 99 :=
  ⟨preprocessint_coerce_then_lookup.2.2.1 99 rfl,
   preprocessint_coerce_then_lookup.2.2.2.1 "abc" rfl,
   preprocessint_coerce_then_lookup.1 beatmapStatusCall (.jint 1) 1 rfl,
   preprocessint_coerce_then_lookup.2.2.2.2.1 "abc" "BeatmapStatus" 99⟩

/-- C1: the enumeration types map exactly the wire integer codes to names:
game mode 0-3 (osu=0, taiko=1, ctb=2, mania=3), beatmap status -2..3 with
1 = ranked, genre 0-10 with code 8 unassigned, language 0-11; every integer
outside an enum's declared set (such as beatmap-status 99) fails conversion
(`none`) rather than coercing to a default member. -/
theorem enum_wire_codes_exact :
    (∀ n : Int, OsuMode.ofCode n =
      if n = 0 then some .osu
      else if n = 1 then some .taiko
      else if n = 2 then some .ctb
      else if n = 3 then some .mania
      else none) ∧
    (∀ n : Int, BeatmapStatus.ofCode n =
      if n = -2 then some .graveyard
      else if n = -1 then some .wip
      else if n = 0 then some .pending
      else if n = 1 then some .ranked
      else if n = 2 then some .approved
      else if n = 3 then some .qualified
      else none) ∧
    (∀ n : Int, BeatmapGenre.ofCode n =
      if n = 0 then some .any
      else if n = 1 then some .unspecified
      else if n = 2 then some .video_game
      else if n = 3 then some .anime
      else if n = 4 then some .rock
      else if n = 5 then some .pop
      else if n = 6 then some .other
      else if n = 7 then some .novelty
      else if n = 9 then some .hip_hop
      else if n = 10 then some .electronic
      else none) ∧
    (∀ n : Int, BeatmapLanguage.ofCode n =
      if n = 0 then some .any
      else if n = 1 then some .other
      else if n = 2 then some .english
      else if n = 3 then some .japanese
      else if n = 4 then some .chinese
      else if n = 5 then some .instrumental
      else if n = 6 then some .korean
      else if n = 7 then some .french
      else if n = 8 then some .german
      else if n = 9 then some .swedish
      else if n = 10 then some .spanish
      else if n = 11 then some .italian
      else none) :=
  ⟨osuMode_ofCode_eq, beatmapStatus_ofCode_eq, beatmapGenre_ofCode_eq,
   beatmapLanguage_ofCode_eq⟩

lemma digitChar_isDigit : ∀ n : Nat, (digitChar n).isDigit = true
  | 0 | 1 | 2 | 3 | 4 | 5 | 6 | 7 | 8 => by decide
  | _ + 9 => rfl

lemma digitVal_digitChar (n : Nat) (h : n < 10) : digitVal (digitChar n) = n := by
  interval_cases n <;> decide

lemma optBind_some {α β : Type} (a : α) (f : α → Option β) :
    (some a).bind f = f a := rfl

lemma parseYear_pad4 (n : Nat) (h : n ≤ 9999) (rest : List Char) :
    parseYear (pad4 n ++ rest) = some (n, rest) := by
  show parseYear (digitChar (n / 1000) :: digitChar (n / 100 % 10) ::
    digitChar (n / 10 % 10) :: digitChar (n % 10) :: rest) = some (n, rest)
  simp only [parseYear, digitChar_isDigit, Bool.and_self, if_true]
  rw [digitVal_digitChar _ (by omega), digitVal_digitChar _ (by omega),
      digitVal_digitChar _ (by omega), digitVal_digitChar _ (by omega)]
  exact congrArg (fun k => some (k, rest)) (by omega)

lemma parseField_pad2 (twoOK oneOK : Nat → Bool) (n : Nat) (h : n ≤ 99)
    (h2 : twoOK n = true) (tail : List Char) :
    parseField twoOK oneOK (pad2 n ++ tail) = some (n, tail) := by
  have hv : digitVal (digitChar (n / 10)) * 10 + digitVal (digitChar (n % 10)) = n := by
    rw [digitVal_digitChar _ (by omega), digitVal_digitChar _ (by omega)]
    omega
  show parseField twoOK oneOK (digitChar (n / 10) :: digitChar (n % 10) :: tail) =
    some (n, tail)
  simp only [parseField, digitChar_isDigit, Bool.true_and, hv, h2, if_true]

lemma parseField_pad2_last (twoOK oneOK : Nat → Bool) (n : Nat) (h : n ≤ 99)
    (h2 : twoOK n = true) :
    parseField twoOK oneOK (pad2 n) = some (n, []) := by
  have := parseField_pad2 twoOK oneOK n h h2 []
  simpa using this

lemma parseLit_self (c : Char) (rest : List Char) :
    parseLit c (c :: rest) = some rest := by
  simp [parseLit]

lemma daysInMonth_le_31 (y m : Nat) : daysInMonth y m ≤ 31 := by
  unfold daysInMonth
  split_ifs <;> omega

lemma strptimeFields_format (y mo d h mi s : Nat)
    (hy2 : y ≤ 9999) (hm1 : 1 ≤ mo) (hm2 : mo ≤ 12)
    (hd1 : 1 ≤ d) (hd2 : d ≤ 31) (hh : h ≤ 23) (hmi : mi ≤ 59) (hs : s ≤ 61) :
    strptimeFields (pad4 y ++ '-' :: (pad2 mo ++ '-' :: (pad2 d ++ ' ' ::
      (pad2 h ++ ':' :: (pad2 mi ++ ':' :: pad2 s))))) =
    some (y, mo, d, h, mi, s) := by
  unfold strptimeFields
  rw [parseYear_pad4 y hy2]
  simp only [optBind_some]
  rw [parseLit_self]
  simp only [optBind_some]
  rw [parseField_pad2 twoDigitMonth oneDigitPos mo (by omega)
    (by simp only [twoDigitMonth, decide_eq_true_eq]; exact ⟨hm1, hm2⟩)]
  simp only [optBind_some]
  rw [parseLit_self]
  simp only [optBind_some]
  rw [parseField_pad2 twoDigitDay oneDigitPos d (by omega)
    (by simp only [twoDigitDay, decide_eq_true_eq]; exact ⟨hd1, hd2⟩)]
  simp only [optBind_some]
  rw [parseLit_self]
  simp only [optBind_some]
  rw [parseField_pad2 twoDigitHour oneDigitAny h (by omega)
    (by simp only [twoDigitHour, decide_eq_true_eq]; exact hh)]
  simp only [optBind_some]
  rw [parseLit_self]
  simp only [optBind_some]
  rw [parseField_pad2 twoDigitMinute oneDigitAny mi (by omega)
    (by simp only [twoDigitMinute, decide_eq_true_eq]; exact hmi)]
  simp only [optBind_some]
  rw [parseLit_self]
  simp only [optBind_some]
  rw [parseField_pad2_last twoDigitSecond oneDigitAny s (by omega)
    (by simp only [twoDigitSecond, decide_eq_true_eq]; exact hs)]
  simp only [optBind_some]
  rfl

lemma strptime_roundtrip (t : DateTime) (hy1 : 1000 ≤ t.year)
    (hy2 : t.year ≤ 9999) (hm1 : 1 ≤ t.month) (hm2 : t.month ≤ 12)
    (hd1 : 1 ≤ t.day) (hd2 : t.day ≤ daysInMonth t.year t.month)
    (hh : t.hour ≤ 23) (hmi : t.minute ≤ 59) (hs : t.second ≤ 59) :
    strptimeOsu (formatDate t) = .ok t := by
  obtain ⟨y, mo, d, h, mi, s⟩ := t
  simp only at hy1 hy2 hm1 hm2 hd1 hd2 hh hmi hs
  have hd31 : d ≤ 31 := le_trans hd2 (daysInMonth_le_31 y mo)
  unfold strptimeOsu
  have hl : (formatDate ⟨y, mo, d, h, mi, s⟩).toList =
      pad4 y ++ '-' :: (pad2 mo ++ '-' :: (pad2 d ++ ' ' ::
        (pad2 h ++ ':' :: (pad2 mi ++ ':' :: pad2 s)))) := rfl
  rw [hl, strptimeFields_format y mo d h mi s hy2 hm1 hm2 hd1 hd31 hh hmi
    (by omega)]
  dsimp only
  rw [if_pos ⟨by omega, hs, hd2⟩]

/-- C5: DateConverter parses exactly the "%Y-%m-%d %H:%M:%S" format with no
fallback formats: the example string parses to 2014-01-02 03:04:05, while
strings deviating from the format (different separators, missing seconds,
reordered fields) fail; and get_beatmaps serializes its outgoing `since`
parameter with the same format, witnessed by the since parameter being the
formatDate rendering and by strptime inverting formatDate on every valid
four-digit-year datetime. -/
theorem dateconverter_exact_format :
    DateConverter (.jstr "2014-01-02 03:04:05") =
      .ok (.vdatetime ⟨2014, 1, 2, 3, 4, 5⟩) ∧
    (∃ e, DateConverter (.jstr "2014/01/02 03:04:05") = .error e) ∧
    (∃ e, DateConverter (.jstr "2014-01-02T03:04:05") = .error e) ∧
    (∃ e, DateConverter (.jstr "2014-01-02 03:04") = .error e) ∧
    (∃ e, DateConverter (.jstr "02-01-2014 03:04:05") = .error e) ∧
    (∀ t : DateTime, 1000 ≤ t.year → t.year ≤ 9999 → 1 ≤ t.month →
      t.month ≤ 12 → 1 ≤ t.day → t.day ≤ daysInMonth t.year t.month →
      t.hour ≤ 23 → t.minute ≤ 59 → t.second ≤ 59 →
      strptimeOsu (formatDate t) = .ok t) ∧
    (∀ key since beatmapset_id beatmap_id username mode include_converted
      beatmap_hash limit,
      List.lookup "since" (getBeatmapsParams key (some since) beatmapset_id
        beatmap_id username mode include_converted beatmap_hash limit) =
      some (.pstr (formatDate since))) := by
  refine ⟨rfl, ⟨_, rfl⟩, ⟨_, rfl⟩, ⟨_, rfl⟩, ⟨_, rfl⟩, strptime_roundtrip, ?_⟩
  intro key since beatmapset_id beatmap_id username mode include_converted
    beatmap_hash limit
  rcases username with _ | (n | s) <;> cases beatmapset_id <;>
    cases beatmap_id <;>
    simp [getBeatmapsParams, makeReqParams, usernameType, usernameParam,
      List.lookup]

/-- Witness for C5's roundtrip component at a concrete datetime (a leap-year
February 29th). -/
theorem dateconverter_exact_format_witness :
    strptimeOsu (formatDate ⟨2020, 2, 29, 23, 59, 59⟩) =
      .ok ⟨2020, 2, 29, 23, 59, 59⟩ :=
  dateconverter_exact_format.2.2.2.2.2.1 ⟨2020, 2, 29, 23, 59, 59⟩
    (by decide) (by decide) (by decide) (by decide) (by decide) (by decide)
    (by decide) (by decide) (by decide)

lemma construct_missing_at (pre : Schema) :
    ∀ (post : Schema) (raw : List (String × Json)) (name key : String)
      (conv : Conv),
      (∀ e ∈ pre, entryOK raw e) →
      List.lookup key raw = none →
      construct (pre ++ (name, key, conv) :: post) raw =
        .error (.missingField name) := by
  induction pre with
  | nil =>
    intro post raw name key conv _ hnone
    simp only [List.nil_append, construct, hnone]
  | cons e0 pre ih =>
    intro post raw name key conv hok hnone
    obtain ⟨n0, k0, c0⟩ := e0
    obtain ⟨v, w, hv, hw⟩ := hok _ (List.mem_cons_self _ _)
    simp only [entryOK] at hv hw
    simp only [List.cons_append, construct, hv, hw, List.append_eq,
      ih post raw name key conv (fun e he => hok e (List.mem_cons_of_mem _ he)) hnone]
    rfl

lemma construct_convfail_at (pre : Schema) :
    ∀ (post : Schema) (raw : List (String × Json)) (name key : String)
      (conv : Conv) (v : Json) (e : PyErr),
      (∀ en ∈ pre, entryOK raw en) →
      List.lookup key raw = some v →
      conv v = .error e →
      construct (pre ++ (name, key, conv) :: post) raw =
        .error (.fieldError name e) := by
  induction pre with
  | nil =>
    intro post raw name key conv v e _ hsome hconv
    simp only [List.nil_append, construct, hsome, hconv]
  | cons e0 pre ih =>
    intro post raw name key conv v e hok hsome hconv
    obtain ⟨n0, k0, c0⟩ := e0
    obtain ⟨v0, w0, hv0, hw0⟩ := hok _ (List.mem_cons_self _ _)
    simp only [entryOK] at hv0 hw0
    simp only [List.cons_append, construct, hv0, hw0, List.append_eq,
      ih post raw name key conv v e
        (fun en hen => hok en (List.mem_cons_of_mem _ hen)) hsome hconv]
    rfl

lemma construct_fails_of_missing (schema : Schema) :
    ∀ (raw : List (String × Json)) (name key : String) (conv : Conv),
      (name, key, conv) ∈ schema →
      List.lookup key raw = none →
      ∃ err, construct schema raw = .error err := by
  induction schema with
  | nil => intro raw name key conv hmem; cases hmem
  | cons e0 rest ih =>
    intro raw name key conv hmem hnone
    obtain ⟨n0, k0, c0⟩ := e0
    cases h0 : List.lookup k0 raw with
    | none => exact ⟨.missingField n0, by simp only [construct, h0]⟩
    | some v0 =>
      cases hc0 : c0 v0 with
      | error e => exact ⟨.fieldError n0 e, by simp only [construct, h0, hc0]⟩
      | ok w0 =>
        rcases List.mem_cons.mp hmem with heq | hmem2
        · exfalso
          have : k0 = key := by
            have := congrArg (fun x : String × String × Conv => x.2.1) heq
            simpa using this.symm
          rw [this] at h0
          rw [h0] at hnone
          cases hnone
        · obtain ⟨err, herr⟩ := ih raw name key conv hmem2 hnone
          exact ⟨err, by simp only [construct, h0, hc0, herr]; rfl⟩

/-- C2: for raw objects lacking the source key of a declared attribute,
construct fails with a missing-field error naming that attribute (stated at
the first failing descriptor, matching the spec's fail-fast propagation, and
in general construction fails whenever any declared key is absent); and when
a field is present but its converter fails, construct fails with an error
naming that field and carrying the underlying conversion error. -/
theorem construct_field_attributed_errors :
    (∀ (pre post : Schema) (raw : List (String × Json)) (name key : String)
      (conv : Conv),
      (∀ e ∈ pre, entryOK raw e) →
      List.lookup key raw = none →
      construct (pre ++ (name, key, conv) :: post) raw =
        .error (.missingField name)) ∧
    (∀ (pre post : Schema) (raw : List (String × Json)) (name key : String)
      (conv : Conv) (v : Json) (e : PyErr),
      (∀ en ∈ pre, entryOK raw en) →
      List.lookup key raw = some v →
      conv v = .error e →
      construct (pre ++ (name, key, conv) :: post) raw =
        .error (.fieldError name e)) ∧
    (∀ (schema : Schema) (raw : List (String × Json)) (name key : String)
      (conv : Conv),
      (name, key, conv) ∈ schema →
      List.lookup key raw = none →
      ∃ err, construct schema raw = .error err) :=
  ⟨fun pre post raw name key conv hok hnone =>
      construct_missing_at pre post raw name key conv hok hnone,
   fun pre post raw name key conv v e hok hsome hconv =>
      construct_convfail_at pre post raw name key conv v e hok hsome hconv,
   fun schema raw name key conv hmem hnone =>
      construct_fails_of_missing schema raw name key conv hmem hnone⟩

/-- Witness for C2: a two-field schema whose second source key is absent
fails with a missing-field error naming "b"; with the key present and a
null value, the int converter's TypeError is wrapped with the field name. -/
theorem construct_field_attributed_errors_witness :
    construct [("a", "a", pyIntConv), ("b", "bKey", pyIntConv)]
      [("a", .jint 1)] = .error (.missingField "b") ∧
    construct [("a", "a", pyIntConv), ("b", "bKey", pyIntConv)]
      [("a", .jint 1), ("bKey", .null)] =
      .error (.fieldError "b" (.typeErrorIntArg "NoneType")) ∧
    ∃ err, construct [("a", "a", pyIntConv), ("b", "bKey", pyIntConv)]
      [("a", .jint 1)] = .error err :=
  ⟨construct_field_attributed_errors.1 [("a", "a", pyIntConv)] [] _ "b" "bKey"
      pyIntConv
      (by
        intro e he
        rcases List.mem_singleton.mp he with rfl
        exact ⟨.jint 1, .vint 1, rfl, rfl⟩)
      rfl,
   construct_field_attributed_errors.2.1 [("a", "a", pyIntConv)] [] _ "b"
      "bKey" pyIntConv .null (.typeErrorIntArg "NoneType")
      (by
        intro en hen
        rcases List.mem_singleton.mp hen with rfl
        exact ⟨.jint 1, .vint 1, rfl, rfl⟩)
      rfl rfl,
   construct_field_attributed_errors.2.2 _ _ "b" "bKey" pyIntConv
      (List.mem_cons_of_mem _ (List.mem_cons_self _ _)) rfl⟩

/-- C7: TeamScore extends Score by adding slot, team and passed while keeping
every parent Score field with its converter; `passed` is sourced from the
JSON key "pass"; constructing a TeamScore from a valid raw object yields an
instance exposing all parent and child attributes by their declared names. -/
theorem teamscore_extends_score :
    teamScoreSchema = scoreSchema ++ teamScoreOwn ∧
    ("slot", "slot", pyIntConv) ∈ teamScoreSchema ∧
    ("team", "team", pyIntConv) ∈ teamScoreSchema ∧
    ("passed", "pass", pyBoolConv) ∈ teamScoreSchema ∧
    construct teamScoreSchema teamScoreRaw = .ok teamScoreInstance ∧
    teamScoreInstance.map Prod.fst = teamScoreSchema.map (fun e => e.1) ∧
    List.lookup "passed" teamScoreInstance = some (.vbool true) ∧
    List.lookup "user_id" teamScoreInstance = some (.vint 42) := by
  have h1 : teamScoreSchema = scoreSchema ++ teamScoreOwn := rfl
  refine ⟨h1, ?_, ?_, ?_, rfl, rfl, rfl, rfl⟩
  · rw [h1]; exact List.mem_append_right _ (List.mem_cons_self _ _)
  · rw [h1]
    exact List.mem_append_right _
      (List.mem_cons_of_mem _ (List.mem_cons_self _ _))
  · rw [h1]
    exact List.mem_append_right _ (List.mem_cons_of_mem _
      (List.mem_cons_of_mem _ (List.mem_cons_self _ _)))

/-- C8: the claim says every optional parameter left absent is omitted from
the outgoing parameter set, and in particular that get_scores called with
its defaults (username None, mods None) builds a request omitting those
entries.  The code instead evaluates `mods.value` on None and raises
AttributeError before any parameter set exists, so get_scores with default
mods never builds a request; _make_req's None filter does omit the absent
username and type entries once mods is supplied. -/
theorem get_scores_default_mods_attribute_error :
    (∀ (key : String) (beatmap_id limit : Int),
      getScoresReq key beatmap_id none OsuMode.osu none limit =
        .error (.attributeError "NoneType" "value")) ∧
    (∀ (key : String) (beatmap_id mv limit : Int),
      getScoresReq key beatmap_id none OsuMode.osu (some mv) limit =
        .ok [("k", .pstr key), ("b", .pint beatmap_id), ("m", .pint 0),
             ("mods", .pint mv), ("limit", .pint limit)]) := by
  constructor
  · intro key beatmap_id limit; rfl
  · intro key beatmap_id mv limit; rfl

/-- C9: the client module imports the model type SoloScore, which the model
module never defines, so loading the client module raises ImportError at the
SoloScore name and get_user_best can never be invoked successfully for any
input. -/
theorem solo_score_undefined_breaks_get_user_best :
    modelModuleNames.contains "SoloScore" = false ∧
    osuModuleModelImports.contains "SoloScore" = true ∧
    loadOsuModule = .error (.importError "SoloScore") ∧
    (∀ (key : String) (username : Username) (mode : OsuMode) (limit : Int),
      getUserBestReq key username mode limit =
        .error (.importError "SoloScore")) := by
  refine ⟨rfl, rfl, rfl, ?_⟩
  intro key username mode limit
  rfl

/-- C10: for every constructed User instance, the string conversion method
evaluates the unbound name `username` (not the instance attribute), which is
neither a local, a module global nor a builtin, so it always raises
NameError and never returns the user's name. -/
theorem user_str_always_name_error :
    ∀ self : List (String × PyVal),
      userStrMethod self = .error (.nameError "username") := by
  intro self
  rfl

end Osuapi
